import Mathlib

/-!
Verification of the AI Inventory browser client (the products page).

The page is embedded shallowly: React `useState`/`useRef` cells become the
fields of `ClientState`; each event handler becomes a function from the
state (plus, for asynchronous handlers, the server's response modelled as
an `Except`) to the new state together with the list of network calls the
handler issues.  `setX(v)` becomes a field update, and an `await`ed helper
is inlined with sequential state-passing semantics, so a read after a set
sees the new value.  JavaScript truthiness is modelled explicitly where the
code relies on it (`0`, `""`, `undefined` are falsy).
-/

namespace AIInventory

/-- A browser `File` object, restricted to the fields the page reads:
`name`, `size` and the MIME `type` (called `mime` here). -/
structure JFile where
  name : String
  size : Nat
  mime : String
deriving DecidableEq, Repr

/-- The `Product` record as typed at the top of the page. Optional fields of
the TypeScript type become `Option`s. -/
structure Product where
  id : Option Nat
  document : String
  product_name : String
  brand_name : String
  product_type : String
  retail_price : Int
  sale_price : Int
  model_number : String
  color : String
  variants : String
  vendor_name : String
  extra_fields : Option (List (String × String))
  metadata : Option (List (String × String))
  seo_name : Option String
  formatted_name_generated : Option Bool
deriving DecidableEq, Repr

/-- The `Doc` record (an uploaded document) as typed in the page. -/
structure Doc where
  id : Nat
  filename : String
  total_rows : Nat
  uploaded_at : String
  vendor_name : Option String
  extra_fields : Option (List String)
deriving DecidableEq, Repr

/-- One entry of the upload response's `skipped_files` array. -/
structure SkippedFile where
  filename : String
  reason : String
deriving DecidableEq, Repr

/-- The upload endpoint's response shape `{uploaded, skipped, skipped_files?}`;
each field may be absent, matching the `?? 0` defaulting in the handler. -/
structure UploadResp where
  uploaded : Option Nat
  skipped : Option Nat
  skipped_files : Option (List SkippedFile)
deriving DecidableEq, Repr

/-- Response shape of the three pipeline endpoints: `{updated, failed}`. -/
structure PipelineResp where
  updated : Option Nat
  failed : Option (List Nat)
deriving DecidableEq, Repr

/-- A network request issued by a handler. -/
inductive Call where
  | uploadReq (files : List JFile) (vendor_name : String)
  | docsFetch
  | productsFetch (page pageSize : Nat)
  | pipelinePost (endpoint : String) (product_ids : List Nat)
deriving DecidableEq, Repr

def GENERATE_METADATA_ENDPOINT : String := "/api/products/generate-metadata/"

def GENERATE_ONLINE_SEO_NAME_ENDPOINT : String := "/api/products/generate-online-seo-name/"

def GENERATE_FORMATTED_NAME_ENDPOINT : String := "/api/products/generate-formatted-name/"

/-- The page's state cells: one field per `useState` plus the `uploadingRef`
ref cell.  (`loadingProducts`, the collapsible-docs toggle and the transient
DOM value of the file input are presentation-only and not read by any claim;
they are omitted.) -/
structure ClientState where
  files : List JFile
  docs : List Doc
  products : List Product
  selectedProductIds : List Nat
  vendorName : String
  page : Nat
  pageSize : Nat
  totalPages : Nat
  error : Option String
  success : Option String
  loadingUpload : Bool
  loadingMeta : Bool
  loadingSeo : Bool
  loadingName : Bool
  uploading : Bool
deriving DecidableEq, Repr

/-- The initial values of all the state cells (`useState` initialisers;
`uploadingRef` starts `false`). -/
def initialState : ClientState :=
  { files := [], docs := [], products := [], selectedProductIds := []
    vendorName := "", page := 1, pageSize := 20, totalPages := 1
    error := none, success := none
    loadingUpload := false, loadingMeta := false, loadingSeo := false
    loadingName := false, uploading := false }

/-- JavaScript `x || d` for an optional string `x`: the empty string is falsy. -/
def jsOrString : Option String → String → String
  | some s, d => if s = "" then d else s
  | none,  d => d

/-- JavaScript `x || d` for an optional number `x`: `0` is falsy. -/
def jsOrNat : Option Nat → Nat → Nat
  | some n, d => if n = 0 then d else n
  | none,  d => d

/-- JavaScript `String.prototype.trim()`: strip whitespace from both ends,
modelled directly over the character list. -/
def jsTrim (s : String) : String :=
  String.mk (((s.data.dropWhile Char.isWhitespace).reverse.dropWhile
    Char.isWhitespace).reverse)

/-- The staged-file identity key, the template string `f.name-f.size`. -/
def fileKey (f : JFile) : String := f.name ++ "-" ++ toString f.size

/-- The `setFiles` updater shared by `onDrop` and `handleFileSelect`: keep the
previous list and append those candidates whose key is not already staged
(the code's `existing` set is the key image of the previous list). -/
def addFiles (prev dropped : List JFile) : List JFile :=
  prev ++ dropped.filter (fun f => !((prev.map fileKey).contains (fileKey f)))

/-- The `onDrop` handler: filter the dropped files to `application/pdf`,
return unchanged if none remain, otherwise stage the new ones and clear the
error toast.  (The code's `dropped` local is inlined.) -/
def onDrop (s : ClientState) (dropped : List JFile) : ClientState :=
  if (dropped.filter (fun f => f.mime == "application/pdf")).length = 0 then s
  else
    { s with
        files := addFiles s.files (dropped.filter (fun f => f.mime == "application/pdf"))
        error := none }

/-- The `handleFileSelect` handler (file-picker path): no MIME filter in the
handler itself (the hidden input carries only an advisory `accept`). -/
def handleFileSelect (s : ClientState) (selected : List JFile) : ClientState :=
  if selected.length = 0 then s
  else { s with files := addFiles s.files selected, error := none }

/-- `removeFile(idx)`: drop the staged file at position `idx`. -/
def removeFile (s : ClientState) (idx : Nat) : ClientState :=
  { s with files := (s.files.enum.filter (fun p => p.1 != idx)).map Prod.snd }

/-- `clearAllFiles`. -/
def clearAllFiles (s : ClientState) : ClientState := { s with files := [] }

/-- `toggleSelectProduct(id?)`: `if (!id) return` makes `undefined` and `0`
no-ops; otherwise delete the id from the selection set if present, else add. -/
def toggleSelectProduct (s : ClientState) (id : Option Nat) : ClientState :=
  match id with
  | none => s
  | some i =>
    if i = 0 then s
    else if s.selectedProductIds.contains i then
      { s with selectedProductIds := s.selectedProductIds.filter (fun x => x != i) }
    else
      { s with selectedProductIds := s.selectedProductIds ++ [i] }

/-- `clearSelection`. -/
def clearSelection (s : ClientState) : ClientState := { s with selectedProductIds := [] }

/-- `selectAll`: ids of the loaded page, `.filter(Boolean)` dropping
`undefined` and `0`, deduplicated by the `Set` constructor. -/
def selectAll (s : ClientState) : ClientState :=
  { s with selectedProductIds :=
      ((s.products.filterMap Product.id).filter (fun i => i != 0)).eraseDups }

/-- The `selectedProducts` memo: products of the loaded page whose truthy id
is in the selection set (`p.id && ids.has(p.id)`). -/
def selectedProducts (s : ClientState) : List Product :=
  s.products.filter (fun p =>
    match p.id with
    | none => false
    | some i => i != 0 && s.selectedProductIds.contains i)

/-- The predicate of the `missingSeoForSelected` memo:
`!p.seo_name || String(p.seo_name).trim().length === 0`. -/
def missingSeo (p : Product) : Bool :=
  match p.seo_name with
  | none => true
  | some v => v == "" || (jsTrim v).length == 0

/-- The `missingSeoForSelected` memo. -/
def missingSeoForSelected (s : ClientState) : List Product :=
  (selectedProducts s).filter missingSeo

/-- The `alreadyFormattedSelected` memo: selected products whose
`formatted_name_generated` is truthy. -/
def alreadyFormattedSelected (s : ClientState) : List Product :=
  (selectedProducts s).filter (fun p => p.formatted_name_generated.getD false)

/-- The success toast built in `upload`:
`Uploaded N PDF(s).` plus, when `skipped > 0`, ` Skipped M duplicate(s).` -/
def uploadSuccessMessage (r : UploadResp) : String :=
  let uploaded := r.uploaded.getD 0
  let skipped := r.skipped.getD 0
  "Uploaded " ++ toString uploaded ++ " PDF(s)." ++
    (if skipped > 0 then " Skipped " ++ toString skipped ++ " duplicate(s)." else "")

/-- The per-file skip report built in `upload` from `skipped_files`. -/
def skippedFilesMessage (l : List SkippedFile) : String :=
  String.intercalate "\n" (l.map (fun f =>
    "File \x22" ++ f.filename ++ "\x22 was skipped: " ++ f.reason))

/-- The whole `upload` handler, as one attempt: guards, then (when a request
is issued) the try/catch/finally applied to the given transport `result`.
`Except.error m` carries `e.response?.data?.error`.  Sequential
state-passing: `setPage(1)` before `fetchProducts()` makes the product
refresh request page `1`. -/
def uploadAttempt (s : ClientState) (result : Except (Option String) UploadResp) :
    ClientState × List Call :=
  if s.files.length = 0 ∨ s.uploading = true then (s, [])
  else if jsTrim s.vendorName = "" then
    ({ s with error := some "Please select a vendor before uploading." }, [])
  else
    match result with
    | .ok r =>
      ({ s with
           files := []
           success := some (uploadSuccessMessage r)
           error := match r.skipped_files with
             | some l => if l.length > 0 then some (skippedFilesMessage l) else none
             | none => none
           page := 1
           selectedProductIds := []
           loadingUpload := false, vendorName := "", uploading := false },
       [Call.uploadReq s.files s.vendorName, Call.docsFetch,
        Call.productsFetch 1 s.pageSize])
    | .error m =>
      ({ s with
           error := some (jsOrString m "Failed to upload PDFs")
           success := none
           loadingUpload := false, vendorName := "", uploading := false },
       [Call.uploadReq s.files s.vendorName])

/-- `generateMetadataForSelected`: raw ids, nonemptiness guard, POST, then a
product refresh of the current page on success. -/
def generateMetadataForSelected (s : ClientState)
    (result : Except (Option String) PipelineResp) : ClientState × List Call :=
  if s.selectedProductIds.length = 0 then
    ({ s with error := some "Select at least 1 product first." }, [])
  else
    match result with
    | .ok r =>
      ({ s with
           error := none
           success := some ("Metadata generated: " ++ toString (r.updated.getD 0) ++
             " updated" ++
             (if (r.failed.map List.length).getD 0 ≠ 0 then
               ", " ++ toString ((r.failed.map List.length).getD 0) ++ " failed" else ""))
           loadingMeta := false },
       [Call.pipelinePost GENERATE_METADATA_ENDPOINT s.selectedProductIds,
        Call.productsFetch s.page s.pageSize])
    | .error m =>
      ({ s with
           error := some (jsOrString m "Failed to generate metadata")
           success := none
           loadingMeta := false },
       [Call.pipelinePost GENERATE_METADATA_ENDPOINT s.selectedProductIds])

/-- `generateOnlineSeoNameForSelected`: same shape as the metadata handler. -/
def generateOnlineSeoNameForSelected (s : ClientState)
    (result : Except (Option String) PipelineResp) : ClientState × List Call :=
  if s.selectedProductIds.length = 0 then
    ({ s with error := some "Select at least 1 product first." }, [])
  else
    match result with
    | .ok r =>
      ({ s with
           error := none
           success := some ("SEO names generated: " ++ toString (r.updated.getD 0) ++
             " updated" ++
             (if (r.failed.map List.length).getD 0 ≠ 0 then
               ", " ++ toString ((r.failed.map List.length).getD 0) ++ " failed" else ""))
           loadingSeo := false },
       [Call.pipelinePost GENERATE_ONLINE_SEO_NAME_ENDPOINT s.selectedProductIds,
        Call.productsFetch s.page s.pageSize])
    | .error m =>
      ({ s with
           error := some (jsOrString m "Failed to generate SEO names")
           success := none
           loadingSeo := false },
       [Call.pipelinePost GENERATE_ONLINE_SEO_NAME_ENDPOINT s.selectedProductIds])

/-- `generateFormattedNameForSelected`: raw-id nonemptiness guard, the two
local precondition checks over `selectedProducts`, then the POST (with the
raw ids) and a product refresh on success. -/
def generateFormattedNameForSelected (s : ClientState)
    (result : Except (Option String) PipelineResp) : ClientState × List Call :=
  if s.selectedProductIds.length = 0 then
    ({ s with error := some "Select at least 1 product first." }, [])
  else if 0 < (missingSeoForSelected s).length then
    ({ s with error := some ("SEO name missing for " ++
        toString (missingSeoForSelected s).length ++
        " selected product(s). Generate SEO name first.") }, [])
  else if 0 < (alreadyFormattedSelected s).length then
    ({ s with error := some ("Product name already generated once for " ++
        toString (alreadyFormattedSelected s).length ++ " selected product(s).") }, [])
  else
    match result with
    | .ok r =>
      ({ s with
           error := none
           success := some ("Product names formatted: " ++ toString (r.updated.getD 0) ++
             " updated" ++
             (if (r.failed.map List.length).getD 0 ≠ 0 then
               ", " ++ toString ((r.failed.map List.length).getD 0) ++ " failed" else ""))
           loadingName := false },
       [Call.pipelinePost GENERATE_FORMATTED_NAME_ENDPOINT s.selectedProductIds,
        Call.productsFetch s.page s.pageSize])
    | .error m =>
      ({ s with
           error := some (jsOrString m "Failed to format product names")
           success := none
           loadingName := false },
       [Call.pipelinePost GENERATE_FORMATTED_NAME_ENDPOINT s.selectedProductIds])

/-- The pagination cells of the page, projected out of `ClientState` so that
every code path touching `page`, `totalPages` or `pageSize` can be given as a
transition: the two nav buttons, the page-size select, a list response
(`setTotalPages(res.data.total_pages || 1)`) and the post-upload
`setPage(1)`. -/
structure PageState where
  page : Nat
  totalPages : Nat
  pageSize : Nat
deriving DecidableEq, Repr

/-- The Prev button handler `setPage((p) => Math.max(1, p - 1))`. -/
def prevClick (s : PageState) : PageState := { s with page := max 1 (s.page - 1) }

/-- The Next button handler `setPage((p) => Math.min(totalPages, p + 1))`. -/
def nextClick (s : PageState) : PageState :=
  { s with page := min s.totalPages (s.page + 1) }

/-- The Prev button's `disabled={page <= 1}` attribute. -/
def prevDisabled (s : PageState) : Bool := decide (s.page ≤ 1)

/-- The Next button's `disabled={page >= totalPages}` attribute. -/
def nextDisabled (s : PageState) : Bool := decide (s.totalPages ≤ s.page)

/-- The page-size select handler: `setPage(1); setPageSize(v)`. -/
def changePageSize (s : PageState) (v : Nat) : PageState :=
  { s with page := 1, pageSize := v }

/-- Applying a product-list response: `setTotalPages(res.data.total_pages || 1)`
(an absent or zero `total_pages` becomes `1`). -/
def applyTotalPages (s : PageState) (tp : Option Nat) : PageState :=
  { s with totalPages := jsOrNat tp 1 }

/-- The post-upload `setPage(1)`. -/
def resetToFirstPage (s : PageState) : PageState := { s with page := 1 }

/-- The page `fetchProducts` requests from the list endpoint at state `s`. -/
def requestedPage (s : PageState) : Nat := s.page

/-- Initial pagination state: `page = 1`, `pageSize = 20`, `totalPages = 1`. -/
def initialPageState : PageState := { page := 1, totalPages := 1, pageSize := 20 }

/-- States reachable through the pagination-touching code paths; button
transitions fire only while the button is enabled. -/
inductive PageReach : PageState → Prop where
  | init : PageReach initialPageState
  | prev {s : PageState} : PageReach s → prevDisabled s = false → PageReach (prevClick s)
  | next {s : PageState} : PageReach s → nextDisabled s = false → PageReach (nextClick s)
  | size {s : PageState} (v : Nat) : PageReach s → PageReach (changePageSize s v)
  | fetched {s : PageState} (tp : Option Nat) : PageReach s →
      PageReach (applyTotalPages s tp)
  | uploadReset {s : PageState} : PageReach s → PageReach (resetToFirstPage s)

/-- Same transitions, with list responses restricted to never report a
`total_pages` below the page the client currently sits on. -/
inductive GoodPageReach : PageState → Prop where
  | init : GoodPageReach initialPageState
  | prev {s : PageState} : GoodPageReach s → prevDisabled s = false →
      GoodPageReach (prevClick s)
  | next {s : PageState} : GoodPageReach s → nextDisabled s = false →
      GoodPageReach (nextClick s)
  | size {s : PageState} (v : Nat) : GoodPageReach s → GoodPageReach (changePageSize s v)
  | fetched {s : PageState} (tp : Option Nat) : GoodPageReach s →
      s.page ≤ jsOrNat tp 1 → GoodPageReach (applyTotalPages s tp)
  | uploadReset {s : PageState} : GoodPageReach s → GoodPageReach (resetToFirstPage s)

/-- One `add()` interaction with the staging area: either a drop or a
file-picker selection, carrying the candidate batch. -/
inductive AddEvent where
  | drop (batch : List JFile)
  | pick (batch : List JFile)
deriving DecidableEq, Repr

/-- The candidate batch an event carries. -/
def AddEvent.batch : AddEvent → List JFile
  | .drop b => b
  | .pick b => b

/-- Run one staging event through its handler. -/
def applyAdd (s : ClientState) : AddEvent → ClientState
  | .drop b => onDrop s b
  | .pick b => handleFileSelect s b

/-- Run a whole sequence of staging events. -/
def applyAdds (s : ClientState) (es : List AddEvent) : ClientState :=
  es.foldl applyAdd s

end AIInventory

namespace AIInventory

/-! ## Helper lemmas -/

/-- One `add()` keeps the staged keys duplicate-free, provided both the
already-staged keys and the incoming batch keys are duplicate-free. -/
theorem addFiles_nodup_keys (prev dropped : List JFile)
    (hp : (prev.map fileKey).Nodup) (hd : (dropped.map fileKey).Nodup) :
    ((addFiles prev dropped).map fileKey).Nodup := by
  unfold addFiles
  rw [List.map_append, List.nodup_append]
  refine ⟨hp, ?_, ?_⟩
  · exact hd.sublist ((List.filter_sublist dropped).map fileKey)
  · intro k hk hk'
    rcases List.mem_map.mp hk' with ⟨f, hf, rfl⟩
    rcases List.mem_filter.mp hf with ⟨_, hcond⟩
    rw [Bool.not_eq_true'] at hcond
    exact absurd hk (by simpa using hcond)

/-- The staged-file list is untouched by a staging event except through
`addFiles` on (a sublist of) the event's batch. -/
theorem applyAdd_files (s : ClientState) (e : AddEvent) :
    (applyAdd s e).files = s.files ∨
    ∃ b, b.Sublist e.batch ∧ (applyAdd s e).files = addFiles s.files b := by
  cases e with
  | drop batch =>
    simp only [applyAdd, onDrop]
    split
    · exact Or.inl rfl
    · exact Or.inr ⟨_, List.filter_sublist batch, rfl⟩
  | pick batch =>
    simp only [applyAdd, handleFileSelect]
    split
    · exact Or.inl rfl
    · exact Or.inr ⟨batch, List.Sublist.refl batch, rfl⟩

/-! ## Concrete fixtures used by counterexamples and witnesses -/

/-- A PDF candidate file. -/
def pdfA : JFile := { name := "a.pdf", size := 5, mime := "application/pdf" }

/-- A second, distinct PDF candidate file. -/
def pdfB : JFile := { name := "b.pdf", size := 7, mime := "application/pdf" }

/-- A non-PDF candidate file. -/
def txtC : JFile := { name := "notes.txt", size := 3, mime := "text/plain" }

/-! ## Claims -/

/-- C3, counterexample: a single drop whose batch contains the same
`(name, size)` twice stages both copies — `add()` deduplicates a candidate
only against the previously staged list, not against the rest of its own
batch — so the staged list does hold two entries with the same identity key,
refuting the claim for this batch grouping. -/
theorem c3_counterexample :
    ((onDrop initialState [pdfA, pdfA]).files.map fileKey) = ["a.pdf-5", "a.pdf-5"] ∧
    ¬ (((onDrop initialState [pdfA, pdfA]).files.map fileKey).Nodup) := by
  constructor
  · rfl
  · decide

/-- C3, amended: over every sequence of `add()` calls (drops or picks) whose
individual batches are free of internal key duplicates, the staged list never
contains two entries with the same `(name, size)` key, regardless of call
order or batch grouping; duplicates inside one batch are the only exception. -/
theorem c3_staging_nodup (s : ClientState) (es : List AddEvent)
    (h0 : (s.files.map fileKey).Nodup)
    (hb : ∀ e ∈ es, ((AddEvent.batch e).map fileKey).Nodup) :
    (((applyAdds s es).files.map fileKey)).Nodup := by
  induction es generalizing s with
  | nil => exact h0
  | cons e es ih =>
    simp only [applyAdds, List.foldl_cons]
    have he : ((AddEvent.batch e).map fileKey).Nodup := hb e (List.mem_cons_self e es)
    have h1 : (((applyAdd s e).files.map fileKey)).Nodup := by
      rcases applyAdd_files s e with h | ⟨b, hsub, heq⟩
      · rw [h]; exact h0
      · rw [heq]
        exact addFiles_nodup_keys _ _ h0 (he.sublist (hsub.map fileKey))
    exact ih (applyAdd s e) h1 (fun x hx => hb x (List.mem_cons_of_mem e hx))

/-- C3, witness: the amended theorem evaluated on a concrete two-batch run. -/
theorem c3_staging_nodup_witness :
    (((applyAdds initialState [AddEvent.drop [pdfA], AddEvent.pick [pdfB, pdfA]]).files.map
      fileKey)).Nodup := by
  exact c3_staging_nodup initialState [AddEvent.drop [pdfA], AddEvent.pick [pdfB, pdfA]]
    (by decide) (by decide)

/-- C9, counterexample: the file-picker path (`handleFileSelect`) applies no
content-type filter, so a `text/plain` candidate selected through the picker
is staged — refuting the claim that non-PDF files are filtered out before
staging on both intake paths. -/
theorem c9_counterexample :
    (handleFileSelect initialState [txtC]).files = [txtC] ∧
    (handleFileSelect initialState [txtC]).error = none := by
  exact ⟨rfl, rfl⟩

/-- C9, amended: only the drag-and-drop path filters candidates to
`application/pdf` (silently — no error is surfaced, the error toast is
cleared or left alone); the file-picker path stages the selected batch
unfiltered (only the input element's advisory `accept` attribute restricts
it). -/
theorem c9_staging_filter (s : ClientState) (dropped selected : List JFile) :
    (∀ f ∈ (onDrop s dropped).files, f ∈ s.files ∨ f.mime = "application/pdf") ∧
    ((onDrop s dropped).error = s.error ∨ (onDrop s dropped).error = none) ∧
    ((handleFileSelect s selected).files =
      if selected.length = 0 then s.files else addFiles s.files selected) := by
  refine ⟨?_, ?_, ?_⟩
  · intro f hf
    unfold onDrop at hf
    split at hf
    · exact Or.inl hf
    · unfold addFiles at hf
      rcases List.mem_append.mp hf with h | h
      · exact Or.inl h
      · exact Or.inr (eq_of_beq (List.mem_filter.mp (List.mem_filter.mp h).1).2)
  · unfold onDrop
    split
    · exact Or.inl rfl
    · exact Or.inr rfl
  · unfold handleFileSelect
    split <;> rfl

/-- C9, witness: the amended theorem applied to concrete drop and pick
batches. -/
theorem c9_staging_filter_witness :
    (pdfA ∈ initialState.files ∨ pdfA.mime = "application/pdf") ∧
    ((handleFileSelect initialState [txtC]).files =
      if ([txtC] : List JFile).length = 0 then initialState.files
      else addFiles initialState.files [txtC]) := by
  exact ⟨(c9_staging_filter initialState [pdfA] [txtC]).1 pdfA (by decide),
         (c9_staging_filter initialState [pdfA] [txtC]).2.2⟩

/-- A product (id 1) whose `seo_name` is absent. -/
def prodNoSeo1 : Product :=
  { id := some 1, document := "doc.pdf", product_name := "Alpha", brand_name := "B"
    product_type := "t", retail_price := 10, sale_price := 9, model_number := "m"
    color := "c", variants := "v", vendor_name := "VendorX", extra_fields := none
    metadata := none, seo_name := none, formatted_name_generated := some false }

/-- A different product (id 2), also without `seo_name`. -/
def prodNoSeo2 : Product := { prodNoSeo1 with id := some 2, product_name := "Beta" }

/-- Page holding only `prodNoSeo1`, which is selected. -/
def stMissingA : ClientState :=
  { initialState with products := [prodNoSeo1], selectedProductIds := [1] }

/-- Page holding only `prodNoSeo2`, which is selected. -/
def stMissingB : ClientState :=
  { initialState with products := [prodNoSeo2], selectedProductIds := [2] }

/-- C1, counterexample: two states whose sets of SEO-missing selected
products differ (product Alpha/id 1 versus product Beta/id 2) produce the
very same rejection message, which therefore cannot name which products fail
the sub-condition — it only reports their count.  The rejection itself (no
network call) does happen. -/
theorem c1_counterexample :
    missingSeoForSelected stMissingA ≠ missingSeoForSelected stMissingB ∧
    (generateFormattedNameForSelected stMissingA (Except.error none)).1.error =
      (generateFormattedNameForSelected stMissingB (Except.error none)).1.error ∧
    (generateFormattedNameForSelected stMissingA (Except.error none)).1.error =
      some "SEO name missing for 1 selected product(s). Generate SEO name first." ∧
    (generateFormattedNameForSelected stMissingA (Except.error none)).2 = [] := by
  refine ⟨by decide, by decide, by decide, rfl⟩

/-- C1, amended: over a non-empty selection, if any selected product (as
resolved against the loaded page) has an empty `seo_name`, or — failing
that check — has `formatted_name_generated` truthy, the operation fails
locally: no network call is issued and the state is unchanged except for an
error message reporting the count of offending products and which
sub-condition failed (missing SEO is checked first); only when both checks
pass is the formatting endpoint called, first in the call list. -/
theorem c1_formatted_name_preconditions (s : ClientState)
    (r : Except (Option String) PipelineResp)
    (hne : s.selectedProductIds ≠ []) :
    (missingSeoForSelected s ≠ [] →
       generateFormattedNameForSelected s r =
         ({ s with error := some ("SEO name missing for " ++
             toString (missingSeoForSelected s).length ++
             " selected product(s). Generate SEO name first.") }, [])) ∧
    (missingSeoForSelected s = [] → alreadyFormattedSelected s ≠ [] →
       generateFormattedNameForSelected s r =
         ({ s with error := some ("Product name already generated once for " ++
             toString (alreadyFormattedSelected s).length ++
             " selected product(s).") }, [])) ∧
    (missingSeoForSelected s = [] → alreadyFormattedSelected s = [] →
       (generateFormattedNameForSelected s r).2.head? =
         some (Call.pipelinePost GENERATE_FORMATTED_NAME_ENDPOINT
           s.selectedProductIds)) := by
  have h0 : ¬(s.selectedProductIds.length = 0) :=
    fun h => hne (List.length_eq_zero.mp h)
  refine ⟨?_, ?_, ?_⟩
  · intro hm
    simp only [generateFormattedNameForSelected]
    rw [if_neg h0, if_pos (List.length_pos.mpr hm)]
  · intro hm hf
    simp only [generateFormattedNameForSelected]
    rw [if_neg h0, if_neg (by rw [hm]; simp), if_pos (List.length_pos.mpr hf)]
  · intro hm hf
    simp only [generateFormattedNameForSelected]
    rw [if_neg h0, if_neg (by rw [hm]; simp), if_neg (by rw [hf]; simp)]
    cases r <;> rfl

/-- C1, witness: the amended theorem on a concrete state with one selected
product that is missing its SEO name. -/
theorem c1_formatted_name_preconditions_witness :
    generateFormattedNameForSelected stMissingA (Except.error none) =
      ({ stMissingA with error := some ("SEO name missing for " ++
          toString (missingSeoForSelected stMissingA).length ++
          " selected product(s). Generate SEO name first.") }, []) := by
  exact (c1_formatted_name_preconditions stMissingA (Except.error none)
    (by decide)).1 (by decide)

/-- A selection holding only id 7, which is absent from the loaded page. -/
def stStray : ClientState := { initialState with selectedProductIds := [7] }

/-- C2, counterexample: with a selection consisting only of id 7, not on the
loaded (empty) page, `selectedProducts` is empty — yet `generateMetadata`
still POSTs `product_ids = [7]` and refreshes, because both its nonemptiness
guard and its request body use the raw id set, refuting the claim that ids
of products not on the current page are excluded from the request and from
every precondition check. -/
theorem c2_counterexample :
    selectedProducts stStray = [] ∧
    (generateMetadataForSelected stStray
        (Except.ok { updated := some 0, failed := none })).2 =
      [Call.pipelinePost GENERATE_METADATA_ENDPOINT [7],
       Call.productsFetch 1 20] := by
  exact ⟨rfl, rfl⟩

/-- C2, amended: the field-level precondition checks (missing SEO,
already formatted) are computed over `selectedProducts`, the intersection of
the selection with the loaded page, so off-page ids never reach them; but
the `product_ids` each of the three pipeline operations sends — and their
nonemptiness guard — use the raw selection set, so off-page ids are included
in the network request. -/
theorem c2_selection_resolution (s : ClientState)
    (r : Except (Option String) PipelineResp) :
    (∀ p ∈ selectedProducts s, p ∈ s.products) ∧
    (∀ p ∈ missingSeoForSelected s, p ∈ selectedProducts s) ∧
    (∀ p ∈ alreadyFormattedSelected s, p ∈ selectedProducts s) ∧
    (∀ e ids, Call.pipelinePost e ids ∈ (generateMetadataForSelected s r).2 →
       ids = s.selectedProductIds) ∧
    (∀ e ids, Call.pipelinePost e ids ∈ (generateOnlineSeoNameForSelected s r).2 →
       ids = s.selectedProductIds) ∧
    (∀ e ids, Call.pipelinePost e ids ∈ (generateFormattedNameForSelected s r).2 →
       ids = s.selectedProductIds) := by
  refine ⟨?_, ?_, ?_, ?_, ?_, ?_⟩
  · exact fun p hp => (List.mem_filter.mp hp).1
  · exact fun p hp => (List.mem_filter.mp hp).1
  · exact fun p hp => (List.mem_filter.mp hp).1
  · intro e ids h
    unfold generateMetadataForSelected at h
    split at h
    · simp at h
    · cases r with
      | ok a => simp at h; exact h.2
      | error m => simp at h; exact h.2
  · intro e ids h
    unfold generateOnlineSeoNameForSelected at h
    split at h
    · simp at h
    · cases r with
      | ok a => simp at h; exact h.2
      | error m => simp at h; exact h.2
  · intro e ids h
    unfold generateFormattedNameForSelected at h
    split at h
    · simp at h
    · split at h
      · simp at h
      · split at h
        · simp at h
        · cases r with
          | ok a => simp at h; exact h.2
          | error m => simp at h; exact h.2

/-- C2, witness: the amended theorem at concrete inputs — a selected on-page
product flows into the page list, and a concrete metadata POST carries the
raw ids. -/
theorem c2_selection_resolution_witness :
    prodNoSeo1 ∈ stMissingA.products ∧
    ([7] : List Nat) = stStray.selectedProductIds := by
  refine ⟨(c2_selection_resolution stMissingA (Except.error none)).1 prodNoSeo1
    (by decide), ?_⟩
  exact (c2_selection_resolution stStray
      (Except.ok { updated := some 0, failed := none })).2.2.2.1
    GENERATE_METADATA_ENDPOINT [7] (by decide)

/-- A ready-to-upload state: one staged file and a vendor chosen. -/
def stReady : ClientState :=
  { initialState with files := [pdfA], vendorName := "iTechSmart" }

/-- A concrete successful upload response: `{uploaded: 2, skipped: 1}` with
one per-file skip reason. -/
def respOk : UploadResp :=
  { uploaded := some 2, skipped := some 1
    skipped_files := some [{ filename := "a.pdf", reason := "duplicate" }] }

/-- C4: a successful upload empties the staged list, clears the selection,
resets the page to 1 and issues exactly the request plus one document
refresh and one product refresh — the latter at page 1 with the unchanged
page size — and surfaces the uploaded/skipped summary, with the per-file
skip reasons surfaced when the response carries any. The right-hand state
shows every field's final value explicitly. -/
theorem c4_upload_success (s : ClientState) (r : UploadResp)
    (hf : s.files ≠ []) (hu : s.uploading = false) (hv : jsTrim s.vendorName ≠ "") :
    uploadAttempt s (Except.ok r) =
      ({ s with
           files := []
           success := some (uploadSuccessMessage r)
           error := match r.skipped_files with
             | some l => if l.length > 0 then some (skippedFilesMessage l) else none
             | none => none
           page := 1
           selectedProductIds := []
           loadingUpload := false, vendorName := "", uploading := false },
       [Call.uploadReq s.files s.vendorName, Call.docsFetch,
        Call.productsFetch 1 s.pageSize]) := by
  have h1 : ¬(s.files.length = 0 ∨ s.uploading = true) := by
    rintro (h | h)
    · exact hf (List.length_eq_zero.mp h)
    · rw [hu] at h; exact Bool.false_ne_true h
  unfold uploadAttempt
  rw [if_neg h1, if_neg hv]

/-- C4, witness: the success path evaluated on the concrete ready state and
the `{uploaded: 2, skipped: 1}` response. -/
theorem c4_upload_success_witness :
    (uploadAttempt stReady (Except.ok respOk)).1.files = [] ∧
    (uploadAttempt stReady (Except.ok respOk)).1.page = 1 ∧
    (uploadAttempt stReady (Except.ok respOk)).2 =
      [Call.uploadReq [pdfA] "iTechSmart", Call.docsFetch,
       Call.productsFetch 1 20] := by
  rw [c4_upload_success stReady respOk (by decide) rfl (by decide)]
  exact ⟨rfl, rfl, rfl⟩

/-- C5, counterexample: calling upload with an empty staged list (and, here,
also an empty vendor) is a silent no-op — no network call, but also no
`ValidationError`: the error slot stays empty, refuting the claim that every
empty-file invocation fails with an error naming the offending input. -/
theorem c5_counterexample :
    uploadAttempt initialState (Except.error none) = (initialState, []) ∧
    initialState.error = none := by
  exact ⟨rfl, rfl⟩

/-- C5, amended: with an empty staged list the call returns silently with no
network call and no state change at all; only with staged files present (and
no upload in flight) does an empty vendor fail locally, with an error naming
the vendor input, again with no network call. -/
theorem c5_upload_preconditions (s : ClientState)
    (r : Except (Option String) UploadResp) :
    (s.files = [] → uploadAttempt s r = (s, [])) ∧
    (s.files ≠ [] → s.uploading = false → jsTrim s.vendorName = "" →
       uploadAttempt s r =
         ({ s with error := some "Please select a vendor before uploading." }, [])) := by
  constructor
  · intro h
    unfold uploadAttempt
    rw [if_pos (Or.inl (by rw [h]; rfl))]
  · intro hf hu hv
    have h1 : ¬(s.files.length = 0 ∨ s.uploading = true) := by
      rintro (h | h)
      · exact hf (List.length_eq_zero.mp h)
      · rw [hu] at h; exact Bool.false_ne_true h
    unfold uploadAttempt
    rw [if_neg h1, if_pos hv]

/-- C5, witness: the amended theorem on a state with a staged file but no
vendor chosen. -/
theorem c5_upload_preconditions_witness :
    uploadAttempt { initialState with files := [pdfA] } (Except.error none) =
      ({ initialState with
           files := [pdfA],
           error := some "Please select a vendor before uploading." }, []) := by
  exact (c5_upload_preconditions { initialState with files := [pdfA] }
    (Except.error none)).2 (by decide) rfl rfl

/-- C6: while an upload is in flight (`uploadingRef` true) a second
invocation is a complete no-op — the state is untouched and no request is
issued, so nothing is queued; and whenever an attempt completes, whether it
resolved or errored, the in-flight flag is back to `false`. -/
theorem c6_upload_mutex (s : ClientState)
    (r : Except (Option String) UploadResp) :
    (s.uploading = true → uploadAttempt s r = (s, [])) ∧
    (s.uploading = false → (uploadAttempt s r).1.uploading = false) := by
  constructor
  · intro h
    unfold uploadAttempt
    rw [if_pos (Or.inr h)]
  · intro h
    unfold uploadAttempt
    split
    · exact h
    · split
      · exact h
      · cases r <;> rfl

/-- C6, witness: a busy state rejects the second call unchanged; a completed
attempt from an idle state ends not-uploading. -/
theorem c6_upload_mutex_witness :
    uploadAttempt { stReady with uploading := true } (Except.error none) =
      ({ stReady with uploading := true }, []) ∧
    (uploadAttempt initialState (Except.error none)).1.uploading = false := by
  exact ⟨(c6_upload_mutex { stReady with uploading := true } (Except.error none)).1 rfl,
         (c6_upload_mutex initialState (Except.error none)).2 rfl⟩

/-- C8: a failed upload issues only the one request, surfaces exactly one
error message — the server-supplied text when present (and non-empty, as
`||` treats the empty string as absent), else the generic fallback — clears
any success toast, and leaves the staged-file list (and the rest of the
catalog state) exactly as it was, so the user can retry.  The right-hand
state carries no `files` update: the staged list is preserved. -/
theorem c8_upload_failure (s : ClientState) (m : Option String)
    (hf : s.files ≠ []) (hu : s.uploading = false) (hv : jsTrim s.vendorName ≠ "") :
    uploadAttempt s (Except.error m) =
      ({ s with
           error := some (jsOrString m "Failed to upload PDFs")
           success := none
           loadingUpload := false, vendorName := "", uploading := false },
       [Call.uploadReq s.files s.vendorName]) := by
  have h1 : ¬(s.files.length = 0 ∨ s.uploading = true) := by
    rintro (h | h)
    · exact hf (List.length_eq_zero.mp h)
    · rw [hu] at h; exact Bool.false_ne_true h
  unfold uploadAttempt
  rw [if_neg h1, if_neg hv]

/-- C8, witness: the failure path on the ready state with a server-supplied
message; the staged list survives. -/
theorem c8_upload_failure_witness :
    (uploadAttempt stReady (Except.error (some "Boom"))).1.error = some "Boom" ∧
    (uploadAttempt stReady (Except.error (some "Boom"))).1.files = [pdfA] := by
  rw [c8_upload_failure stReady (some "Boom") (by decide) rfl (by decide)]
  exact ⟨rfl, rfl⟩

/-- A pre-failure state with no toast showing, used to exhibit the C10
frame violation. -/
def stQuiet : ClientState :=
  { initialState with files := [pdfA], vendorName := "VendorX" }

/-- C10, counterexample: on the failure path the vendor is indeed reset and
the staged files preserved, but the error slot — another piece of client
state — changes from `none` to the failure message, refuting the claim that
nothing other than the vendor input is modified by the failure path. -/
theorem c10_counterexample :
    (uploadAttempt stQuiet (Except.error none)).1.vendorName = "" ∧
    (uploadAttempt stQuiet (Except.error none)).1.files = stQuiet.files ∧
    (uploadAttempt stQuiet (Except.error none)).1.error ≠ stQuiet.error := by
  refine ⟨rfl, rfl, by decide⟩

/-- C10, amended: after a completed attempt the vendor input is reset to the
empty string on the success path and on the failure path alike; the failure
path preserves the staged files, the catalogs, the selection and the
pagination cells, releases the loading/in-flight flags, and touches nothing
else except the notification slots (error set to the failure message, any
success toast cleared). -/
theorem c10_upload_frame (s : ClientState) (m : Option String) (r : UploadResp)
    (hf : s.files ≠ []) (hu : s.uploading = false) (hv : jsTrim s.vendorName ≠ "") :
    ((uploadAttempt s (Except.error m)).1.vendorName = "" ∧
     (uploadAttempt s (Except.ok r)).1.vendorName = "") ∧
    (uploadAttempt s (Except.error m)).1.files = s.files ∧
    (uploadAttempt s (Except.error m)).1.docs = s.docs ∧
    (uploadAttempt s (Except.error m)).1.products = s.products ∧
    (uploadAttempt s (Except.error m)).1.selectedProductIds = s.selectedProductIds ∧
    (uploadAttempt s (Except.error m)).1.page = s.page ∧
    (uploadAttempt s (Except.error m)).1.pageSize = s.pageSize ∧
    (uploadAttempt s (Except.error m)).1.totalPages = s.totalPages ∧
    (uploadAttempt s (Except.error m)).1.loadingUpload = false ∧
    (uploadAttempt s (Except.error m)).1.uploading = false ∧
    (uploadAttempt s (Except.error m)).1.error =
      some (jsOrString m "Failed to upload PDFs") ∧
    (uploadAttempt s (Except.error m)).1.success = none := by
  have h1 : ¬(s.files.length = 0 ∨ s.uploading = true) := by
    rintro (h | h)
    · exact hf (List.length_eq_zero.mp h)
    · rw [hu] at h; exact Bool.false_ne_true h
  unfold uploadAttempt
  rw [if_neg h1, if_neg h1, if_neg hv, if_neg hv]
  exact ⟨⟨rfl, rfl⟩, rfl, rfl, rfl, rfl, rfl, rfl, rfl, rfl, rfl, rfl, rfl⟩

/-- C10, witness: the frame theorem on the quiet concrete state. -/
theorem c10_upload_frame_witness :
    (uploadAttempt stQuiet (Except.error none)).1.vendorName = "" ∧
    (uploadAttempt stQuiet (Except.error none)).1.products = stQuiet.products := by
  exact ⟨((c10_upload_frame stQuiet none respOk (by decide) rfl (by decide)).1).1,
         (c10_upload_frame stQuiet none respOk (by decide) rfl (by decide)).2.2.2.1⟩

/-- C7, counterexample: the state `page = 3, totalPages = 2` is reachable —
fetch reports 3 pages, the user walks to page 3, then a fetch reports only 2
pages (`setTotalPages` accepts whatever the server sends) — and there the
next product-list request asks for page 3, outside `[1, total_pages]`,
refuting the claim that every reachable state keeps the requested page
within bounds. -/
theorem c7_counterexample :
    PageReach { page := 3, totalPages := 2, pageSize := 20 } ∧
    ¬ (requestedPage { page := 3, totalPages := 2, pageSize := 20 } ≤
        (PageState.mk 3 2 20).totalPages) := by
  constructor
  · exact PageReach.fetched (some 2)
      (PageReach.next
        (PageReach.next
          (PageReach.fetched (some 3) PageReach.init)
          (by decide))
        (by decide))
  · decide

/-- C7, amended: changing the page size always resets the page to 1 before
the next fetch; Prev never takes the page below 1 and Next never above
`totalPages`; both buttons are disabled at their bounds; and along every
run in which no fetch response reports a `total_pages` below the page the
client currently sits on, every reachable state keeps
`1 ≤ page ≤ totalPages` — the unrestricted system violates the upper bound
only through such a shrinking response. -/
theorem c7_pagination_bounds :
    (∀ s : PageState, GoodPageReach s → 1 ≤ s.page ∧ s.page ≤ s.totalPages) ∧
    (∀ (s : PageState) (v : Nat), (changePageSize s v).page = 1) ∧
    (∀ s : PageState, 1 ≤ (prevClick s).page) ∧
    (∀ s : PageState, (nextClick s).page ≤ s.totalPages) ∧
    (∀ s : PageState, s.page ≤ 1 → prevDisabled s = true) ∧
    (∀ s : PageState, s.totalPages ≤ s.page → nextDisabled s = true) := by
  refine ⟨?_, ?_, ?_, ?_, ?_, ?_⟩
  · intro s h
    induction h with
    | init => exact ⟨Nat.le_refl 1, Nat.le_refl 1⟩
    | prev h hg ih =>
      simp only [prevDisabled, decide_eq_false_iff_not, Nat.not_le] at hg
      simp only [prevClick]
      omega
    | next h hg ih =>
      simp only [nextDisabled, decide_eq_false_iff_not, Nat.not_le] at hg
      simp only [nextClick]
      omega
    | size v h ih =>
      simp only [changePageSize]
      omega
    | fetched tp h htp ih =>
      simp only [applyTotalPages]
      omega
    | uploadReset h ih =>
      simp only [resetToFirstPage]
      omega
  · intro s v; rfl
  · intro s; exact Nat.le_max_left 1 _
  · intro s; exact Nat.min_le_left _ _
  · intro s h; exact decide_eq_true h
  · intro s h; exact decide_eq_true h

/-- C7, witness: the amended theorem applied at the initial state (which is
good-reachable and sits at both bounds) and at a concrete page-size change. -/
theorem c7_pagination_bounds_witness :
    (1 ≤ initialPageState.page ∧ initialPageState.page ≤ initialPageState.totalPages) ∧
    (changePageSize { page := 4, totalPages := 9, pageSize := 20 } 50).page = 1 ∧
    prevDisabled initialPageState = true ∧
    nextDisabled initialPageState = true := by
  exact ⟨c7_pagination_bounds.1 initialPageState GoodPageReach.init,
         c7_pagination_bounds.2.1 { page := 4, totalPages := 9, pageSize := 20 } 50,
         c7_pagination_bounds.2.2.2.2.1 initialPageState (by decide),
         c7_pagination_bounds.2.2.2.2.2 initialPageState (by decide)⟩

end AIInventory
